import Mathlib

/-! Verification of the DineWise search, detail, and user-data routers
against their documented behavior.  The data model follows
frontend/src/types/index.ts and docs/data_model.md; the nearby radius
filter follows the backend excerpt embedded in SEARCH_SEPARATION.md. -/

/-- Geographic coordinates, as in the Restaurant interface of
frontend/src/types/index.ts. -/
structure Coordinates where
  latitude : ℚ
  longitude : ℚ
deriving Repr, DecidableEq

/-- Normalized restaurant result shape (frontend/src/types/index.ts,
interface Restaurant; also the item shape of docs/api_contract.md search
responses). -/
structure Restaurant where
  id : String
  name : String
  rating : ℚ
  price : Option String := none
  categories : List String := []
  image_url : Option String := none
  distance : Option ℚ := none
  is_open : Bool := true
  review_count : Nat := 0
  address : Option String := none
  phone : Option String := none
  yelp_url : Option String := none
  coordinates : Option Coordinates := none
deriving Repr, DecidableEq

/-- Response shape of GET /search/nearby (docs/api_contract.md lines
131-165 and the example response in SEARCH_SEPARATION.md). -/
structure NearbyResponse where
  status : String
  total : Nat
  radius_meters : ℚ
  location : Coordinates
  restaurants : List Restaurant
deriving Repr, DecidableEq

/-- The strict radius post-filter of search_nearby_restaurants, embedded
from the backend excerpt in SEARCH_SEPARATION.md (lines 110-126):
results = [r for r in results if r.distance is not None and
r.distance <= radius]. -/
def filterByRadius (radius : ℚ) (results : List Restaurant) :
    List Restaurant :=
  results.filter fun r =>
    match r.distance with
    | some d => decide (d ≤ radius)
    | none => false

/-- Modelled from the spec: backend/app/routers/search.py
(search_nearby_restaurants) is not under src/.  The endpoint is modelled
from the backend excerpt and response shape in SEARCH_SEPARATION.md: call
the upstream nearby capability with the given center and radius, apply
the strict radius filter to the transformed page, and answer with success
status even when the filter leaves nothing.  `upstream` stands for the
transformed page returned by the external capability for this request. -/
def search_nearby_restaurants (latitude longitude radius : ℚ)
    (upstream : List Restaurant) : NearbyResponse :=
  let results := filterByRadius radius upstream
  { status := "success"
    total := results.length
    radius_meters := radius
    location := { latitude := latitude, longitude := longitude }
    restaurants := results }

/-- Upstream item at 450 m used in the nearby scenario of the spec. -/
def item450 : Restaurant :=
  { id := "a", name := "A", rating := 4, distance := some 450 }

/-- Upstream item at 1200 m used in the nearby scenario of the spec. -/
def item1200 : Restaurant :=
  { id := "b", name := "B", rating := 4, distance := some 1200 }

/-- Upstream item at 900 m used in the nearby scenario of the spec. -/
def item900 : Restaurant :=
  { id := "c", name := "C", rating := 4, distance := some 900 }

/-- Render condition of the distance line in RestaurantCard
(frontend RestaurantCard component): restaurant.distance !== undefined. -/
def cardShowsDistance (r : Restaurant) : Bool :=
  r.distance.isSome

/-- Render condition of the distance line in the Locator map popup
(Locator component): JavaScript truthiness of restaurant.distance, which
is false exactly when the field is absent or equals 0. -/
def popupShowsDistance (r : Restaurant) : Bool :=
  match r.distance with
  | some d => decide (d ≠ 0)
  | none => false

/-- A restaurant reported at exactly 0 m from the query center. -/
def itemZeroDist : Restaurant :=
  { id := "z", name := "Z", rating := 4, distance := some 0 }

/-- Cached restaurant row (docs/data_model.md, restaurant_cache table). -/
structure CacheRow where
  yelp_id : String
  name : String
  location_code : String
  lat : ℚ
  lng : ℚ
  price : Option String := none
  rating : ℚ
  review_count : Nat := 0
  categories : List String := []
  phone : Option String := none
  address : Option String := none
deriving Repr, DecidableEq

/-- The fixed NYC borough codes served from the cache
(SEARCH_SEPARATION.md line 37, docs/api_contract.md line 179). -/
def nycBoroughs : List String := ["MAN", "BK", "QN", "BX", "SI"]

/-- Location switch of the Search Router (task_sheet.md item 6.6): a
location in the fixed borough set takes the cached path. -/
def isBoroughCode (location : String) : Bool :=
  nycBoroughs.contains location

/-- Rating floor predicate: passes when no floor is set or the rating is
at least the floor. -/
def ratingOK (rating_min : Option ℚ) (rating : ℚ) : Bool :=
  match rating_min with
  | some m => decide (m ≤ rating)
  | none => true

/-- Price filter predicate on the cached path: passes when no price
filter is set or the row price tier is among the requested tiers. -/
def priceOK (price : Option (List String)) (p : Option String) : Bool :=
  match price with
  | some tiers =>
    match p with
    | some t => tiers.contains t
    | none => false
  | none => true

/-- Modelled from the spec: the cached-path ordering of
_search_cached_restaurants in backend/app/routers/search.py is not under
src/; following spec section 8 it is rating descending with review count
descending as tie-break.  `cacheLE a b` holds when `a` may come before
`b` in that order. -/
def cacheLE (a b : CacheRow) : Prop :=
  b.rating < a.rating ∨
    (a.rating = b.rating ∧ b.review_count ≤ a.review_count)

instance : DecidableRel cacheLE := fun a b => by
  unfold cacheLE; infer_instance

instance : IsTotal CacheRow cacheLE where
  total a b := by
    rcases lt_trichotomy a.rating b.rating with h | h | h
    · exact Or.inr (Or.inl h)
    · rcases le_total b.review_count a.review_count with hc | hc
      · exact Or.inl (Or.inr ⟨h, hc⟩)
      · exact Or.inr (Or.inr ⟨h.symm, hc⟩)
    · exact Or.inl (Or.inl h)

instance : IsTrans CacheRow cacheLE where
  trans a b c hab hbc := by
    rcases hab with h1 | h1 <;> rcases hbc with h2 | h2
    · exact Or.inl (h2.trans h1)
    · exact Or.inl (h2.1 ▸ h1)
    · exact Or.inl (h1.1.symm ▸ h2)
    · exact Or.inr ⟨h1.1.trans h2.1, h2.2.trans h1.2⟩

/-- Modelled from the spec: _search_cached_restaurants in
backend/app/routers/search.py is not under src/.  Following spec section
4.1 and the borough query of docs/data_model.md: filter cache rows by the
area code and the price/rating predicates, order by rating descending
with review count descending as tie-break, then paginate. -/
def searchCachedRestaurants (location : String)
    (price : Option (List String)) (rating_min : Option ℚ)
    (limit offset : Nat) (cache : List CacheRow) : List CacheRow :=
  (((List.insertionSort cacheLE
      (cache.filter fun row =>
        row.location_code == location
          && priceOK price row.price
          && ratingOK rating_min row.rating)).drop offset).take limit)

/-- Normalization of a cache row into the unified Restaurant shape (spec
section 4.1: both paths produce the same normalized item shape). -/
def toRestaurant (row : CacheRow) : Restaurant :=
  { id := row.yelp_id
    name := row.name
    rating := row.rating
    price := row.price
    categories := row.categories
    review_count := row.review_count
    phone := row.phone
    address := row.address
    coordinates := some { latitude := row.lat, longitude := row.lng } }

/-- Response shape of GET /search (docs/api_contract.md lines 102-129). -/
structure SearchResponse where
  status : String
  source : String
  total : Nat
  restaurants : List Restaurant
deriving Repr, DecidableEq

/-- Modelled from the spec: search_restaurants in
backend/app/routers/search.py is not under src/.  Following spec section
4.1 and SEARCH_SEPARATION.md: a location that is one of the borough codes
is answered entirely from the cache (filtered, ordered, paginated, tagged
with cache provenance); any other location forwards the query, location
string, price filter and limit to the external search capability `yelp`
and applies the rating floor locally as a post-filter over the returned
page. -/
def search_restaurants (q location : String)
    (price : Option (List String)) (rating_min : Option ℚ)
    (limit offset : Nat) (cache : List CacheRow)
    (yelp : String → String → Option (List String) → Nat → List Restaurant) :
    SearchResponse :=
  if isBoroughCode location then
    let rows := searchCachedRestaurants location price rating_min limit
      offset cache
    { status := "success", source := "cache", total := rows.length,
      restaurants := rows.map toRestaurant }
  else
    let page := yelp q location price limit
    let results := page.filter fun r => ratingOK rating_min r.rating
    { status := "success", source := "yelp_api",
      total := results.length, restaurants := results }

/-- Rating-then-review-count descending order on normalized results. -/
def restLE (a b : Restaurant) : Prop :=
  b.rating < a.rating ∨
    (a.rating = b.rating ∧ b.review_count ≤ a.review_count)

/-- Manhattan pizza cache row rated 4.8, for the spec scenario. -/
def rowMan48 : CacheRow :=
  { yelp_id := "p48", name := "Pizza48", location_code := "MAN",
    lat := 0, lng := 0, rating := mkRat 24 5, review_count := 100,
    categories := ["Pizza"] }

/-- Manhattan pizza cache row rated 4.2, for the spec scenario. -/
def rowMan42 : CacheRow :=
  { yelp_id := "p42", name := "Pizza42", location_code := "MAN",
    lat := 0, lng := 0, rating := mkRat 21 5, review_count := 80,
    categories := ["Pizza"] }

/-- Manhattan pizza cache row rated 4.9, for the spec scenario. -/
def rowMan49 : CacheRow :=
  { yelp_id := "p49", name := "Pizza49", location_code := "MAN",
    lat := 0, lng := 0, rating := mkRat 49 10, review_count := 60,
    categories := ["Pizza"] }

/-- Outcome of a CRUD operation, following the error taxonomy of spec
section 7. -/
inductive ApiResult where
  | success
  | notFound
  | validationError
deriving Repr, DecidableEq

/-- Wishlist row (docs/data_model.md, wishlist table). -/
structure WishRow where
  user_id : Nat
  yelp_id : String
deriving Repr, DecidableEq

/-- Review row (docs/data_model.md, reviews table). -/
structure ReviewRow where
  id : Nat
  user_id : Nat
  yelp_id : String
  rating : Int
  text : String
deriving Repr, DecidableEq

/-- Flag row (docs/data_model.md, user_restaurant_flags table). -/
structure FlagRow where
  user_id : Nat
  yelp_id : String
  visited : Bool
  promo_opt_in : Bool
deriving Repr, DecidableEq

/-- Key predicate of the UNIQUE(user_id, yelp_id) wishlist constraint. -/
def wishKey (u : Nat) (b : String) (row : WishRow) : Bool :=
  row.user_id == u && row.yelp_id == b

/-- Key predicate of the UNIQUE(user_id, yelp_id) flags constraint. -/
def flagKey (u : Nat) (b : String) (row : FlagRow) : Bool :=
  row.user_id == u && row.yelp_id == b

/-- Modelled from the spec: backend/app/routers/wishlist.py is not under
src/.  POST /wishlist (spec section 4.4, task_sheet.md item 7.2): an
idempotent upsert keyed by (user, external id), backed by the
UNIQUE(user_id, yelp_id) constraint of docs/data_model.md — adding an
already present pair is a no-op success, not a conflict. -/
def wishlistAdd (u : Nat) (b : String) (s : List WishRow) :
    List WishRow × ApiResult :=
  match s.find? (wishKey u b) with
  | some _ => (s, .success)
  | none => (s ++ [{ user_id := u, yelp_id := b }], .success)

/-- Number of stored wishlist rows for the pair (u, b). -/
def wishCount (u : Nat) (b : String) (s : List WishRow) : Nat :=
  (s.filter (wishKey u b)).length

/-- Modelled from the spec: DELETE /wishlist in
backend/app/routers/wishlist.py is not under src/.  Spec section 4.4:
delete the requesting user's own row for the id; when the user owns no
such row answer not-found (never touching other users' rows). -/
def wishlistDelete (u : Nat) (b : String) (s : List WishRow) :
    List WishRow × ApiResult :=
  match s.find? (wishKey u b) with
  | some _ => (s.filter fun row => !(wishKey u b row), .success)
  | none => (s, .notFound)

/-- Modelled from the spec: DELETE /reviews in
backend/app/routers/reviews.py is not under src/.  Spec section 4.4: the
row must belong to the requesting user; deleting a row owned by another
user answers not-found (not permission-denied) without any write. -/
def reviewDelete (u : Nat) (rid : Nat) (s : List ReviewRow) :
    List ReviewRow × ApiResult :=
  match s.find? (fun row => row.id == rid) with
  | none => (s, .notFound)
  | some row =>
    if row.user_id == u then
      (s.filter fun x => !(x.id == rid), .success)
    else (s, .notFound)

/-- Modelled from the spec: DELETE /flags in backend/app/routers/flags.py
is not under src/.  Same ownership rule as the other deletes. -/
def flagsDelete (u : Nat) (b : String) (s : List FlagRow) :
    List FlagRow × ApiResult :=
  match s.find? (flagKey u b) with
  | some _ => (s.filter fun row => !(flagKey u b row), .success)
  | none => (s, .notFound)

/-- Validation of a review payload (docs/data_model.md reviews table:
integer rating 1-5, text at most 1000 characters; task_sheet.md item
7.9). -/
def reviewValid (rating : Int) (text : String) : Bool :=
  decide (1 ≤ rating) && decide (rating ≤ 5) &&
    decide (text.length ≤ 1000)

/-- Modelled from the spec: POST /reviews in
backend/app/routers/reviews.py is not under src/.  Spec section 4.4 and
task_sheet.md item 7.6: validate the payload, rejecting violations
before any write, then insert the new row for the requesting user. -/
def reviewCreate (u : Nat) (b : String) (rating : Int) (text : String)
    (newId : Nat) (s : List ReviewRow) : List ReviewRow × ApiResult :=
  if reviewValid rating text then
    (s ++ [{ id := newId, user_id := u, yelp_id := b, rating := rating,
             text := text }], .success)
  else (s, .validationError)

/-- Modelled from the spec: PATCH /reviews in
backend/app/routers/reviews.py is not under src/.  Spec section 4.4:
only the author may change rating or text; the payload is validated and
violations are rejected before any write; a row owned by another user
answers not-found. -/
def reviewUpdate (u : Nat) (rid : Nat) (rating : Int) (text : String)
    (s : List ReviewRow) : List ReviewRow × ApiResult :=
  if reviewValid rating text then
    match s.find? (fun row => row.id == rid) with
    | none => (s, .notFound)
    | some row =>
      if row.user_id == u then
        (s.map fun x =>
          if x.id == rid then { x with rating := rating, text := text }
          else x, .success)
      else (s, .notFound)
  else (s, .validationError)

/-- Modelled from the spec: PUT /flags in backend/app/routers/flags.py
is not under src/.  Spec section 4.4 and task_sheet.md item 8.2: an
upsert keyed by (user, external id) allowing partial updates — a boolean
omitted from the payload keeps the stored value when the row exists, and
defaults to false when the row is first created. -/
def flagsUpsert (u : Nat) (b : String) (visited promo : Option Bool)
    (s : List FlagRow) : List FlagRow × ApiResult :=
  match s.find? (flagKey u b) with
  | some _ =>
    (s.map fun row =>
      if flagKey u b row then
        { row with visited := visited.getD row.visited,
                   promo_opt_in := promo.getD row.promo_opt_in }
      else row, .success)
  | none =>
    (s ++ [{ user_id := u, yelp_id := b, visited := visited.getD false,
             promo_opt_in := promo.getD false }], .success)

/-- Detail record returned by the live business fetch
(frontend/src/types/index.ts RestaurantDetail). -/
structure RestaurantDetail extends Restaurant where
  photos : List String := []
  transactions : List String := []
deriving Repr, DecidableEq

/-- External review item shown on the detail page
(frontend/src/types/index.ts YelpReview). -/
structure YelpReviewItem where
  id : String
  rating : Int
  text : String
deriving Repr, DecidableEq

/-- Upstream failure of the external API (spec section 7: NotFoundError
or UpstreamError carrying an upstream status). -/
inductive UpstreamFailure where
  | notFound
  | upstream (status : Nat)
deriving Repr, DecidableEq

/-- Modelled from the spec: the merge rule of
backend/app/routers/restaurants.py is not under src/.  Spec section 4.3:
every field present in the live response overwrites the cache value;
fields the cache has but the live response omits are preserved from
cache. -/
def mergeDetail (cache : Option CacheRow) (live : RestaurantDetail) :
    RestaurantDetail :=
  match cache with
  | none => live
  | some row =>
    { live with
      price := live.price <|> row.price
      phone := live.phone <|> row.phone
      address := live.address <|> row.address
      categories :=
        if live.categories.isEmpty then row.categories
        else live.categories }

/-- Detail endpoint response (docs/api_contract.md GET /restaurants). -/
structure DetailResponse where
  status : String
  restaurant : RestaurantDetail
  yelp_reviews : List YelpReviewItem
deriving Repr, DecidableEq

/-- Modelled from the spec: GET /restaurants in
backend/app/routers/restaurants.py is not under src/.  Spec section 4.3:
read the cache row if present and fetch live detail (required); if the
live fetch fails surface that failure instead of a cache-only record; a
failure of the separate review fetch degrades to an empty review list. -/
def get_restaurant_detail (cache : Option CacheRow)
    (live : Except UpstreamFailure RestaurantDetail)
    (reviews : Except UpstreamFailure (List YelpReviewItem)) :
    Except UpstreamFailure DetailResponse :=
  match live with
  | .error e => .error e
  | .ok d =>
    .ok { status := "success", restaurant := mergeDetail cache d,
          yelp_reviews :=
            match reviews with | .ok rv => rv | .error _ => [] }

/-- Radius lower bound of GET /search/nearby
(docs/api_contract.md line 137). -/
def RADIUS_MIN : Nat := 100

/-- Radius upper bound of GET /search/nearby
(docs/api_contract.md line 137). -/
def RADIUS_MAX : Nat := 40000

/-- Radius default of GET /search/nearby
(docs/api_contract.md line 137). -/
def RADIUS_DEFAULT : Nat := 5000

/-- Modelled from the spec: the query-parameter validation of
search_nearby_restaurants is not under src/; docs/api_contract.md line
137 documents radius as optional within 100-40000 with default 5000, and
spec section 7 documents out-of-range input as a validation error
rejected before any I/O. -/
def validateRadius (radius : Option Nat) : Except String Nat :=
  match radius with
  | none => .ok RADIUS_DEFAULT
  | some r =>
    if RADIUS_MIN ≤ r ∧ r ≤ RADIUS_MAX then .ok r
    else .error "validation_error"

/-- Modelled from the spec: parameter handling of GET /search/nearby,
which requires latitude and longitude (docs/api_contract.md lines
134-136) before validating the radius. -/
def validateNearbyParams (latitude longitude : Option ℚ)
    (radius : Option Nat) : Except String (ℚ × ℚ × Nat) :=
  match latitude, longitude with
  | some lat, some lng => (validateRadius radius).map fun r => (lat, lng, r)
  | _, _ => .error "validation_error"

/-- The radius values the Locator slider can submit: its range input has
min 1000, max 50000, step 1000 (Locator component, frontend). -/
def locatorSliderValues : List Nat :=
  (List.range 50).map fun k => 1000 * (k + 1)

/-- C1: every nearby result keeps a reported distance at most the
requested radius, any upstream item whose distance exceeds the radius is
discarded, the response stays successful even when everything is filtered
out, and the radius=1000 scenario over distances [450, 1200, 900] returns
exactly the 450 and 900 items. -/
theorem nearby_strict_radius_filter (lat lng radius : ℚ)
    (upstream : List Restaurant) :
    (∀ r ∈ (search_nearby_restaurants lat lng radius upstream).restaurants,
        ∃ d, r.distance = some d ∧ d ≤ radius)
    ∧ (∀ r ∈ upstream, ∀ d, r.distance = some d → radius < d →
        r ∉ (search_nearby_restaurants lat lng radius upstream).restaurants)
    ∧ (search_nearby_restaurants lat lng radius upstream).status = "success"
    ∧ (search_nearby_restaurants (40758/1000) (-739855/10000) 1000
        [item450, item1200, item900]).restaurants = [item450, item900] := by
  refine ⟨?_, ?_, rfl, ?_⟩
  · intro r hr
    simp only [search_nearby_restaurants, filterByRadius,
      List.mem_filter] at hr
    obtain ⟨-, hp⟩ := hr
    cases hd : r.distance with
    | none => rw [hd] at hp; simp at hp
    | some d =>
      rw [hd] at hp
      exact ⟨d, rfl, of_decide_eq_true hp⟩
  · intro r hr d hd hlt hmem
    simp only [search_nearby_restaurants, filterByRadius,
      List.mem_filter] at hmem
    obtain ⟨-, hp⟩ := hmem
    rw [hd] at hp
    exact absurd (of_decide_eq_true hp) (not_le.mpr hlt)
  · decide

/-- Witness for C1: the 450 m item of the scenario is returned and its
distance is at most the requested 1000 m radius. -/
theorem nearby_strict_radius_filter_witness :
    ∃ d, item450.distance = some d ∧ d ≤ (1000 : ℚ) :=
  (nearby_strict_radius_filter 0 0 1000
    [item450, item1200, item900]).1 item450 (by decide)

/-- C10: a restaurant whose distance field is exactly 0 has its distance
line rendered by RestaurantCard (which tests distance !== undefined) but
omitted by the Locator popup (which tests truthiness of distance). -/
theorem zero_distance_rendered_only_in_card (r : Restaurant)
    (h : r.distance = some 0) :
    cardShowsDistance r = true ∧ popupShowsDistance r = false := by
  refine ⟨?_, ?_⟩
  · simp [cardShowsDistance, h]
  · simp [popupShowsDistance, h]

/-- Witness for C10 at a concrete zero-distance restaurant. -/
theorem zero_distance_rendered_only_in_card_witness :
    cardShowsDistance itemZeroDist = true ∧
    popupShowsDistance itemZeroDist = false :=
  zero_distance_rendered_only_in_card itemZeroDist rfl

/-- C2: for a known borough code the Search Router answers entirely from
the cache (the response does not depend on the external capability and
carries the cache provenance marker) and the returned list is sorted by
rating descending with review count descending as tie-break; the
MAN/pizza scenario with ratings 4.8/4.2/4.9, floor 4.5 and limit 5
returns exactly the 4.9 and 4.8 rows in the order [4.9, 4.8]. -/
theorem borough_search_cache_sorted (q location : String)
    (price : Option (List String)) (rating_min : Option ℚ)
    (limit offset : Nat) (cache : List CacheRow)
    (yelp1 yelp2 : String → String → Option (List String) → Nat →
      List Restaurant)
    (hloc : isBoroughCode location = true) :
    search_restaurants q location price rating_min limit offset cache
        yelp1 =
      search_restaurants q location price rating_min limit offset cache
        yelp2
    ∧ (search_restaurants q location price rating_min limit offset cache
        yelp1).source = "cache"
    ∧ List.Pairwise restLE
        (search_restaurants q location price rating_min limit offset cache
          yelp1).restaurants
    ∧ (search_restaurants "pizza" "MAN" none (some (mkRat 9 2)) 5 0
        [rowMan48, rowMan42, rowMan49] (fun _ _ _ _ => [])).restaurants =
        [toRestaurant rowMan49, toRestaurant rowMan48] := by
  refine ⟨?_, ?_, ?_, ?_⟩
  · simp only [search_restaurants, hloc, if_pos]
  · simp only [search_restaurants, hloc, if_pos]
  · simp only [search_restaurants, hloc, if_pos]
    have hs : List.Pairwise cacheLE
        (List.insertionSort cacheLE
          (cache.filter fun row =>
            row.location_code == location
              && priceOK price row.price
              && ratingOK rating_min row.rating)) :=
      List.sorted_insertionSort cacheLE _
    have h1 : List.Pairwise cacheLE
        (searchCachedRestaurants location price rating_min limit offset
          cache) :=
      (hs.sublist (List.drop_sublist _ _)).sublist (List.take_sublist _ _)
    rw [List.pairwise_map]
    exact h1.imp (fun h => h)
  · decide

/-- Witness for C2: the concrete MAN scenario, with the borough hypothesis
discharged at location MAN. -/
theorem borough_search_cache_sorted_witness :
    (search_restaurants "pizza" "MAN" none (some (mkRat 9 2)) 5 0
      [rowMan48, rowMan42, rowMan49] (fun _ _ _ _ => [])).restaurants =
      [toRestaurant rowMan49, toRestaurant rowMan48] :=
  (borough_search_cache_sorted "pizza" "MAN" none (some (mkRat 9 2)) 5 0
    [rowMan48, rowMan42, rowMan49] (fun _ _ _ _ => [])
    (fun _ _ _ _ => []) (by decide)).2.2.2

/-- C3: for a location outside the borough set the Search Router forwards
query, location, price and limit to the external capability and applies
the rating floor locally: the returned count never exceeds the requested
limit when the capability honors it, every returned item comes from the
forwarded page, and every returned item passes the rating floor when one
is set. -/
theorem freeform_search_rating_post_filter (q location : String)
    (price : Option (List String)) (rating_min : Option ℚ)
    (limit offset : Nat) (cache : List CacheRow)
    (yelp : String → String → Option (List String) → Nat →
      List Restaurant)
    (hloc : isBoroughCode location = false)
    (hpage : (yelp q location price limit).length ≤ limit) :
    (search_restaurants q location price rating_min limit offset cache
        yelp).restaurants.length ≤ limit
    ∧ (∀ r ∈ (search_restaurants q location price rating_min limit offset
        cache yelp).restaurants,
        r ∈ yelp q location price limit ∧
          ∀ m, rating_min = some m → m ≤ r.rating)
    ∧ (search_restaurants q location price rating_min limit offset cache
        yelp).source = "yelp_api" := by
  refine ⟨?_, ?_, ?_⟩
  · simp only [search_restaurants, hloc, Bool.false_eq_true, if_false]
    exact le_trans (List.length_filter_le _ _) hpage
  · intro r hr
    simp only [search_restaurants, hloc, Bool.false_eq_true, if_false,
      List.mem_filter] at hr
    obtain ⟨hmem, hp⟩ := hr
    refine ⟨hmem, ?_⟩
    intro m hm
    rw [hm] at hp
    exact of_decide_eq_true hp
  · simp only [search_restaurants, hloc, Bool.false_eq_true, if_false]

/-- Witness for C3 at a concrete free-text location, with both hypotheses
discharged by evaluation. -/
theorem freeform_search_rating_post_filter_witness :
    (search_restaurants "pizza" "Boston, MA" none (some 4) 5 0 []
      (fun _ _ _ _ => [item450, item1200])).restaurants.length ≤ 5 :=
  (freeform_search_rating_post_filter "pizza" "Boston, MA" none (some 4)
    5 0 [] (fun _ _ _ _ => [item450, item1200]) (by decide)
    (by decide)).1

/-- C4: wishlist add is idempotent — from a store satisfying the unique
(user_id, yelp_id) constraint, adding (u, b) twice leaves exactly one
stored row for (u, b), and both operations answer success (the second is
a no-op success, not a conflict). -/
theorem wishlist_add_idempotent (u : Nat) (b : String) (s : List WishRow)
    (hinv : wishCount u b s ≤ 1) :
    (wishlistAdd u b s).2 = ApiResult.success
    ∧ (wishlistAdd u b (wishlistAdd u b s).1).2 = ApiResult.success
    ∧ wishCount u b (wishlistAdd u b (wishlistAdd u b s).1).1 = 1 := by
  cases hf : s.find? (wishKey u b) with
  | some row =>
    have hmem : row ∈ s := List.mem_of_find?_eq_some hf
    have hp : wishKey u b row = true := List.find?_some hf
    have hrow : row ∈ s.filter (wishKey u b) :=
      List.mem_filter.mpr ⟨hmem, hp⟩
    have h1 : 0 < (s.filter (wishKey u b)).length :=
      List.length_pos.mpr (List.ne_nil_of_mem hrow)
    have hc : wishCount u b s = 1 := by
      unfold wishCount at hinv ⊢
      omega
    refine ⟨?_, ?_, ?_⟩
    · simp [wishlistAdd, hf]
    · simp [wishlistAdd, hf]
    · simpa [wishlistAdd, hf] using hc
  | none =>
    have hnil : s.filter (wishKey u b) = [] :=
      List.filter_eq_nil_iff.mpr (List.find?_eq_none.mp hf)
    have hkey : wishKey u b { user_id := u, yelp_id := b } = true := by
      simp [wishKey]
    have hf2 : (s ++ [({ user_id := u, yelp_id := b } : WishRow)]).find?
        (wishKey u b) = some { user_id := u, yelp_id := b } := by
      rw [List.find?_append, hf]
      simp [hkey]
    refine ⟨?_, ?_, ?_⟩
    · simp [wishlistAdd, hf]
    · simp [wishlistAdd, hf, hf2]
    · simp only [wishlistAdd, hf, hf2]
      unfold wishCount
      rw [List.filter_append, hnil]
      simp [hkey]

/-- Witness for C4 from the empty store. -/
theorem wishlist_add_idempotent_witness :
    wishCount 1 "biz" (wishlistAdd 1 "biz" (wishlistAdd 1 "biz" []).1).1
      = 1 :=
  (wishlist_add_idempotent 1 "biz" [] (by decide)).2.2

/-- C5: a delete aimed at another user's row answers not-found (not
permission-denied) and leaves the store unchanged, for wishlist, review
and flag rows alike.  The review delete names its target row directly by
id; the wishlist and flag deletes are keyed by (user, id), so the
requester owning no row for the id is what aims the request at the other
user's row. -/
theorem cross_user_delete_not_found (u v rid : Nat) (b : String)
    (ws : List WishRow) (rs : List ReviewRow) (fs : List FlagRow)
    (row : ReviewRow) (wrow : WishRow) (frow : FlagRow)
    (huv : u ≠ v)
    (hw : ws.find? (wishKey u b) = none) (hwv : wrow ∈ ws)
    (hr : rs.find? (fun x => x.id == rid) = some row)
    (hrown : row.user_id = v)
    (hf : fs.find? (flagKey u b) = none) (hfv : frow ∈ fs) :
    wishlistDelete u b ws = (ws, ApiResult.notFound)
    ∧ wrow ∈ (wishlistDelete u b ws).1
    ∧ reviewDelete u rid rs = (rs, ApiResult.notFound)
    ∧ row ∈ (reviewDelete u rid rs).1
    ∧ flagsDelete u b fs = (fs, ApiResult.notFound)
    ∧ frow ∈ (flagsDelete u b fs).1 := by
  have hwd : wishlistDelete u b ws = (ws, ApiResult.notFound) := by
    simp only [wishlistDelete, hw]
  have hne : (row.user_id == u) = false := by
    rw [hrown]
    simpa using Ne.symm huv
  have hrd : reviewDelete u rid rs = (rs, ApiResult.notFound) := by
    simp only [reviewDelete, hr, hne, Bool.false_eq_true, if_false]
  have hfd : flagsDelete u b fs = (fs, ApiResult.notFound) := by
    simp only [flagsDelete, hf]
  refine ⟨hwd, ?_, hrd, ?_, hfd, ?_⟩
  · rw [hwd]; exact hwv
  · rw [hrd]; exact List.mem_of_find?_eq_some hr
  · rw [hfd]; exact hfv

/-- Wishlist row of user 2 used in the cross-user delete witness. -/
def wrowV : WishRow := { user_id := 2, yelp_id := "r1" }

/-- Review row of user 2 used in the cross-user delete witness. -/
def rrowV : ReviewRow :=
  { id := 7, user_id := 2, yelp_id := "r1", rating := 5, text := "solid" }

/-- Flag row of user 2 used in the cross-user delete witness. -/
def frowV : FlagRow :=
  { user_id := 2, yelp_id := "r1", visited := true, promo_opt_in := false }

/-- Witness for C5: user 1 deleting user 2's review answers not-found
with the store intact. -/
theorem cross_user_delete_not_found_witness :
    reviewDelete 1 7 [rrowV] = ([rrowV], ApiResult.notFound) :=
  (cross_user_delete_not_found 1 2 7 "r1" [wrowV] [rrowV] [frowV]
    rrowV wrowV frowV (by decide) (by decide) (by decide) (by decide)
    (by decide) (by decide) (by decide)).2.2.1

/-- C6: when the live detail fetch fails the endpoint surfaces that
failure for every cache state — even when a cache row exists it never
answers with a cache-only record. -/
theorem detail_live_failure_never_cache_only (cache : Option CacheRow)
    (live : Except UpstreamFailure RestaurantDetail)
    (reviews : Except UpstreamFailure (List YelpReviewItem))
    (e : UpstreamFailure) (hlive : live = .error e) :
    get_restaurant_detail cache live reviews = .error e
    ∧ ∀ resp, get_restaurant_detail cache live reviews ≠ .ok resp := by
  subst hlive
  refine ⟨rfl, ?_⟩
  intro resp h
  simp only [get_restaurant_detail] at h
  cases h

/-- Witness for C6 with a present cache row. -/
theorem detail_live_failure_never_cache_only_witness :
    get_restaurant_detail (some rowMan48)
      (Except.error UpstreamFailure.notFound) (Except.ok []) =
      Except.error UpstreamFailure.notFound :=
  (detail_live_failure_never_cache_only (some rowMan48)
    (Except.error UpstreamFailure.notFound) (Except.ok [])
    UpstreamFailure.notFound rfl).1

/-- The Bool validation of a review payload agrees with its stated
bounds. -/
theorem reviewValid_iff (rating : Int) (text : String) :
    reviewValid rating text = true ↔
      1 ≤ rating ∧ rating ≤ 5 ∧ text.length ≤ 1000 := by
  simp [reviewValid, and_assoc]

/-- C7: a review create or update succeeds only for the author with an
integer rating in [1, 5] and text of at most 1000 characters; an invalid
payload is rejected before any write, and a valid update aimed at a row
owned by someone else answers not-found without any write. -/
theorem review_owner_and_bounds_guard (u rid newId : Nat) (b : String)
    (rating : Int) (text : String) (s : List ReviewRow) :
    ((reviewUpdate u rid rating text s).2 = ApiResult.success →
      (∃ row ∈ s, row.id = rid ∧ row.user_id = u)
        ∧ 1 ≤ rating ∧ rating ≤ 5 ∧ text.length ≤ 1000)
    ∧ ((reviewCreate u b rating text newId s).2 = ApiResult.success →
        1 ≤ rating ∧ rating ≤ 5 ∧ text.length ≤ 1000)
    ∧ (reviewValid rating text = false →
        (reviewCreate u b rating text newId s).1 = s
          ∧ (reviewUpdate u rid rating text s).1 = s)
    ∧ (reviewValid rating text = true →
        ∀ row, s.find? (fun x => x.id == rid) = some row →
          row.user_id ≠ u →
          reviewUpdate u rid rating text s = (s, ApiResult.notFound)) := by
  refine ⟨?_, ?_, ?_, ?_⟩
  · intro hs
    rw [reviewUpdate] at hs
    split at hs
    · rename_i hval
      split at hs
      · simp at hs
      · rename_i row hfind
        split at hs
        · rename_i hbeq
          refine ⟨⟨row, List.mem_of_find?_eq_some hfind, ?_, ?_⟩,
            (reviewValid_iff rating text).mp hval⟩
          · simpa using List.find?_some hfind
          · simpa using hbeq
        · simp at hs
    · simp at hs
  · intro hs
    rw [reviewCreate] at hs
    split at hs
    · rename_i hval
      exact (reviewValid_iff rating text).mp hval
    · simp at hs
  · intro hval
    constructor
    · rw [reviewCreate]
      simp [hval]
    · rw [reviewUpdate]
      simp [hval]
  · intro hval row hfind hne
    have hbeq : (row.user_id == u) = false := by simpa using hne
    rw [reviewUpdate, if_pos hval]
    split
    · rfl
    · rename_i row2 hfind2
      have hrr : row2 = row := by
        rw [hfind] at hfind2
        exact (Option.some.inj hfind2).symm
      have hcond : ¬(row2.user_id == u) = true := by
        rw [hrr, hbeq]
        simp
      rw [if_neg hcond]

/-- Witness for C7: an out-of-bounds rating of 6 leaves the store
unchanged. -/
theorem review_owner_and_bounds_guard_witness :
    (reviewCreate 1 "r1" 6 "bad" 9 [rrowV]).1 = [rrowV]
      ∧ (reviewUpdate 1 7 6 "bad" [rrowV]).1 = [rrowV] :=
  (review_owner_and_bounds_guard 1 7 9 "r1" 6 "bad" [rrowV]).2.2.1
    (by decide)

/-- C8: the flags upsert allows partial updates.  When a row for the key
exists, supplying only visited rewrites that row keeping the stored
promo_opt_in, and supplying only promo_opt_in keeps the stored visited;
rows under a different key pass through unchanged.  When no row exists,
the created row defaults the omitted boolean to false. -/
theorem flags_partial_update_preserved (u : Nat) (b : String) (v : Bool)
    (s : List FlagRow) :
    (∀ x ∈ s, flagKey u b x = true →
      ({ x with visited := v } : FlagRow) ∈
          (flagsUpsert u b (some v) none s).1
        ∧ ({ x with promo_opt_in := v } : FlagRow) ∈
          (flagsUpsert u b none (some v) s).1)
    ∧ (∀ x ∈ s, flagKey u b x = false →
        x ∈ (flagsUpsert u b (some v) none s).1
          ∧ x ∈ (flagsUpsert u b none (some v) s).1)
    ∧ (s.find? (flagKey u b) = none →
        (flagsUpsert u b (some v) none s).1 =
            s ++ [{ user_id := u, yelp_id := b, visited := v,
                    promo_opt_in := false }]
          ∧ (flagsUpsert u b none (some v) s).1 =
            s ++ [{ user_id := u, yelp_id := b, visited := false,
                    promo_opt_in := v }]) := by
  refine ⟨?_, ?_, ?_⟩
  · intro x hx hkey
    have hsome : (s.find? (flagKey u b)).isSome := by
      rw [List.find?_isSome]
      exact ⟨x, hx, hkey⟩
    obtain ⟨w, hw⟩ := Option.isSome_iff_exists.mp hsome
    constructor
    · simp only [flagsUpsert, hw]
      have hm := List.mem_map_of_mem (fun row : FlagRow =>
        if flagKey u b row then
          { row with visited := (some v).getD row.visited,
                     promo_opt_in := (none : Option Bool).getD
                       row.promo_opt_in }
        else row) hx
      simp only [hkey, eq_self_iff_true, if_true] at hm
      exact hm
    · simp only [flagsUpsert, hw]
      have hm := List.mem_map_of_mem (fun row : FlagRow =>
        if flagKey u b row then
          { row with visited := (none : Option Bool).getD row.visited,
                     promo_opt_in := (some v).getD row.promo_opt_in }
        else row) hx
      simp only [hkey, eq_self_iff_true, if_true] at hm
      exact hm
  · intro x hx hkey
    have hmember : ∀ (vis promo : Option Bool),
        x ∈ (s.map fun row =>
          if flagKey u b row then
            { row with visited := vis.getD row.visited,
                       promo_opt_in := promo.getD row.promo_opt_in }
          else row) := by
      intro vis promo
      have hm := List.mem_map_of_mem (fun row : FlagRow =>
        if flagKey u b row then
          { row with visited := vis.getD row.visited,
                     promo_opt_in := promo.getD row.promo_opt_in }
        else row) hx
      simp only [hkey, Bool.false_eq_true, if_false] at hm
      exact hm
    cases hfind : s.find? (flagKey u b) with
    | some w =>
      constructor
      · simp only [flagsUpsert, hfind]
        exact hmember (some v) none
      · simp only [flagsUpsert, hfind]
        exact hmember none (some v)
    | none =>
      constructor
      · simp only [flagsUpsert, hfind]
        exact List.mem_append_left _ hx
      · simp only [flagsUpsert, hfind]
        exact List.mem_append_left _ hx
  · intro hfind
    constructor
    · simp [flagsUpsert, hfind]
    · simp [flagsUpsert, hfind]

/-- Witness for C8: creating a fresh row with only visited supplied
defaults promo_opt_in to false. -/
theorem flags_partial_update_preserved_witness :
    (flagsUpsert 1 "r1" (some true) none []).1 =
      [{ user_id := 1, yelp_id := "r1", visited := true,
         promo_opt_in := false }] :=
  ((flags_partial_update_preserved 1 "r1" true []).2.2 rfl).1

/-- C9 as stated is false: 50000 is a value the Locator slider can submit
(its maximum position), yet the endpoint rejects it because the
documented radius range stops at 40000. -/
theorem locator_radius_not_always_accepted :
    50000 ∈ locatorSliderValues ∧
      validateRadius (some 50000) = Except.error "validation_error" :=
  ⟨by decide, rfl⟩

/-- C9 amended: the Nearby Router requires latitude and longitude and
accepts a radius exactly within the documented 100-40000 range (default
5000 when omitted), rejecting any other radius as a validation error
before any I/O; consequently a Locator slider value (1000 to 50000 in
steps of 1000) is accepted exactly when it is at most 40000 — slider
positions above 40000 are rejected. -/
theorem nearby_radius_validation (r sliderV : Nat) (lat lng : ℚ)
    (radiusO : Option Nat)
    (hs : sliderV ∈ locatorSliderValues) :
    (validateRadius (some r) = Except.ok r ↔ 100 ≤ r ∧ r ≤ 40000)
    ∧ validateRadius none = Except.ok 5000
    ∧ validateNearbyParams none (some lng) radiusO =
        Except.error "validation_error"
    ∧ validateNearbyParams (some lat) none radiusO =
        Except.error "validation_error"
    ∧ (validateNearbyParams (some lat) (some lng) (some sliderV) =
        Except.ok (lat, lng, sliderV) ↔ sliderV ≤ 40000) := by
  have hv : 1000 ≤ sliderV := by
    simp only [locatorSliderValues, List.mem_map, List.mem_range] at hs
    obtain ⟨k, -, rfl⟩ := hs
    omega
  refine ⟨?_, rfl, rfl, rfl, ?_⟩
  · show (if RADIUS_MIN ≤ r ∧ r ≤ RADIUS_MAX then Except.ok r
        else Except.error "validation_error") = Except.ok r ↔
      100 ≤ r ∧ r ≤ 40000
    unfold RADIUS_MIN RADIUS_MAX
    split
    · rename_i h
      exact ⟨fun _ => h, fun _ => rfl⟩
    · rename_i h
      constructor
      · intro hok
        cases hok
      · intro hc
        exact absurd hc h
  · show Except.map _ (if RADIUS_MIN ≤ sliderV ∧ sliderV ≤ RADIUS_MAX
        then Except.ok sliderV else Except.error "validation_error") =
      Except.ok (lat, lng, sliderV) ↔ sliderV ≤ 40000
    unfold RADIUS_MIN RADIUS_MAX
    split
    · rename_i h
      exact ⟨fun _ => h.2, fun _ => rfl⟩
    · rename_i h
      constructor
      · intro hok
        simp only [Except.map] at hok
        cases hok
      · intro hle
        exact absurd ⟨by omega, hle⟩ h

/-- Witness for C9 amended at an in-range slider position. -/
theorem nearby_radius_validation_witness :
    validateRadius none = Except.ok 5000 :=
  (nearby_radius_validation 5000 1000 0 0 none (by decide)).2.1
